import Mathlib

/-!
# vdev_disk.c (ZFSin): the Windows block-device adapter

A shallow embedding of `ZFSin/zfs/module/zfs/vdev_disk.c`.

* C pointers are `Option`: `none` is `NULL`, `some a` is the non-NULL address `a`.
* Every call that leaves the file (OS, allocator, buffer layer, pipeline) is
  appended to a trace of `Call`s, in program order.
* What the OS answers is an explicit argument (`OsOpen`, `OsIo`, `OsDone`);
  helpers and constants declared in headers outside this file are fields of `Env`.
* 64-bit unsigned values are `Nat` reduced `% 2^64` where the code can wrap.
-/

namespace VdevDisk

/-! ## Constants from headers -/

/-- Modelled from the spec: errno.h is not part of this file; `EIO` is the
spec's IO_ERROR. -/
def EIO : Int := 5

/-- Modelled from the spec: errno.h is not part of this file; `ENXIO` is the
spec's NOT_AVAILABLE. -/
def ENXIO : Int := 6

/-- Modelled from the spec: errno.h is not part of this file; `EINVAL` is the
spec's INVALID_CONFIG / INVALID_PATH. -/
def EINVAL : Int := 22

/-- Modelled from the spec: errno.h is not part of this file; `ENOTSUP` is the
spec's NOT_SUPPORTED. -/
def ENOTSUP : Int := 129

/-- Modelled from the spec: `DEV_BSIZE` (the fallback block size) is declared
outside this file. -/
def DEV_BSIZE : Nat := 512

/-- Modelled from the spec: `SPA_MINBLOCKSIZE` (the configured minimum block
size) is declared outside this file. -/
def SPA_MINBLOCKSIZE : Nat := 512

/-- Modelled from the spec: `highbit64` is declared outside this file; it is
one more than the index of the highest set bit, and 0 for 0, so that
`highbit64 x - 1` is floor(log2 x). -/
def highbit64 (i : Nat) : Nat := if i = 0 then 0 else Nat.log2 i + 1

/-- Modelled from the spec: the enum `vdev_aux_t` (the cause recorded when a
device faults) is declared outside this file. -/
inductive vdev_aux_t where
  | VDEV_AUX_NONE
  | VDEV_AUX_OPEN_FAILED
  | VDEV_AUX_CORRUPT_DATA
  | VDEV_AUX_NO_REPLICAS
  | VDEV_AUX_BAD_GUID_SUM
  | VDEV_AUX_TOO_SMALL
  | VDEV_AUX_BAD_LABEL
deriving DecidableEq, Repr

/-- Modelled from the spec: the enum `zio_type_t` (request type) is declared
outside this file. -/
inductive zio_type_t where
  | ZIO_TYPE_NULL
  | ZIO_TYPE_READ
  | ZIO_TYPE_WRITE
  | ZIO_TYPE_FREE
  | ZIO_TYPE_CLAIM
  | ZIO_TYPE_IOCTL
deriving DecidableEq, Repr

/-- Modelled from the spec: the enum `zio_priority_t` (request priority) is
declared outside this file. -/
inductive zio_priority_t where
  | ZIO_PRIORITY_SYNC_READ
  | ZIO_PRIORITY_SYNC_WRITE
  | ZIO_PRIORITY_ASYNC_READ
  | ZIO_PRIORITY_ASYNC_WRITE
  | ZIO_PRIORITY_SCRUB
  | ZIO_PRIORITY_NOW
deriving DecidableEq, Repr

/-! ## Data model -/

/-- The adapter state `vdev_disk_t` hung off `vd->vdev_tsd`: the OS handle, the
two referenced OS objects and the offline flag. -/
structure vdev_disk_t where
  vd_lh : Option Nat
  vd_FileObject : Option Nat
  vd_DeviceObject : Option Nat
  vd_ldi_offline : Bool
deriving DecidableEq, Repr

/-- The fields of `vdev_t` that vdev_disk.c reads or writes. `vdev_path` is the
C string without its terminating NUL; `spa_mode_FREAD` is the value of
`spa_mode(vd->vdev_spa) == FREAD`. -/
structure vdev_t where
  vdev_path : Option (List Char)
  vdev_tsd : Option vdev_disk_t
  vdev_reopening : Bool
  vs_aux : vdev_aux_t
  vdev_win_offset : Nat
  vdev_win_length : Nat
  vdev_wholedisk : Nat
  vdev_nowritecache : Bool
  vdev_nonrot : Bool
  vdev_delayed_close : Bool
  vdev_remove_wanted : Bool
  spa_mode_FREAD : Bool
deriving DecidableEq, Repr

/-- The three output parameters of `vdev_disk_open`: the values that
`*psize`, `*max_psize` and `*ashift` hold. -/
structure open_out where
  psize : Nat
  max_psize : Nat
  ashift : Nat
deriving DecidableEq, Repr

/-- The function stored in `dkc_callback`. -/
inductive dkc_callback_fn where
  | vdev_disk_ioctl_done
deriving DecidableEq, Repr

/-- The flush callback record `struct dk_callback` (its cookie is the request
itself). -/
structure dk_callback where
  dkc_callback : dkc_callback_fn
deriving DecidableEq, Repr

/-- The one `zio_vsd_ops_t` table of this file. -/
inductive zio_vsd_ops_t where
  | vdev_disk_vsd_ops
deriving DecidableEq, Repr

/-- The fields of `zio_t` that vdev_disk.c reads or writes; `io_abd_size` is
`zio->io_abd->abd_size`. -/
structure zio_t where
  io_type : zio_type_t
  io_cmd : Nat
  io_priority : zio_priority_t
  io_offset : Nat
  io_size : Nat
  io_abd_size : Nat
  io_error : Int
  io_vsd : Option dk_callback
  io_vsd_ops : Option zio_vsd_ops_t
  io_target_timestamp : Nat
deriving DecidableEq, Repr

/-- The major function code of an OS request. -/
inductive irp_major where
  | IRP_MJ_READ
  | IRP_MJ_WRITE
deriving DecidableEq, Repr

/-- The OS request as `vdev_disk_io_start` builds it: the arguments given to
`IoBuildAsynchronousFsdRequest` and the stack-location fields set afterwards. -/
structure irp_t where
  MajorFunction : irp_major
  DeviceObject : Option Nat
  Buffer : Nat
  Length : Nat
  ByteOffset : Nat
  FileObject : Option Nat
deriving DecidableEq, Repr

/-- The per-request record `vd_callback_t` handed to the waiter thread. -/
structure vd_callback_t where
  b_addr : Nat
  irp : irp_t
deriving DecidableEq, Repr

/-- Every call that leaves vdev_disk.c, with the arguments that matter and,
for the fallible OS calls, the answer. The last two are not calls but the two
ways a run stops being followed: a kernel panic, and a file name that does not
fit the fixed buffers `AnsiName[PATH_MAX]` / `UnicodeName[PATH_MAX]` of
`vdev_disk_open`, after which the behaviour of the C code is undefined. -/
inductive Call where
  | kmem_zalloc_vdev_disk_t
  | kmem_free_vdev_disk_t
  | RtlAnsiStringToUnicodeString (name : List Char)
  | ZwCreateFile (name : List Char) (readonly : Bool) (result : Option Nat)
  | ObReferenceObjectByHandle (h : Option Nat) (result : Option Nat)
  | IoGetRelatedDeviceObject (f : Nat)
  | ObReferenceObject (d : Nat)
  | ObDereferenceObject (o : Option Nat)
  | ZwClose (h : Option Nat)
  | kmem_alloc_dk_callback
  | kmem_alloc_vd_callback_t
  | kmem_free_vd_callback_t
  | abd_borrow_buf (n : Nat)
  | abd_borrow_buf_copy (n : Nat)
  | abd_return_buf_copy_off (buf : Nat) (off len n : Nat)
  | abd_return_buf_off (buf : Nat) (off len n : Nat)
  | KeInitializeEvent
  | IoBuildAsynchronousFsdRequest (major : irp_major) (dev : Option Nat)
      (buf : Nat) (len : Nat) (offset : Nat) (built : Bool)
  | IoGetNextIrpStackLocation
  | IoSetCompletionRoutine
  | thread_create
  | IoCallDriver (dev : Option Nat) (irp : irp_t)
  | KeWaitForSingleObject
  | MmUnlockPages
  | IoFreeMdl
  | IoFreeIrp
  | zio_interrupt
  | zio_execute
  | zio_delay_interrupt
  | thread_exit
  | kernel_panic
  | AnsiName_overrun
deriving DecidableEq, Repr

/-- Helpers, tunables and constants that vdev_disk.c uses but that are declared
elsewhere. `ddi_strtoull s` answers the value stored through the result pointer
(if any) and how many characters of `s` the end pointer advanced. -/
structure Env where
  ddi_strtoull : List Char → Option Nat × Nat
  vdev_readable : vdev_t → Bool
  zio_handle_io_delay : zio_t → Nat
  zfs_nocacheflush : Bool
  B_READ : Nat
  B_WRITE : Nat
  B_ASYNC : Nat
  B_NOCACHE : Nat
  B_PASSIVE : Nat
  DKIOCFLUSHWRITECACHE : Nat
  PATH_MAX : Nat

/-- What the OS answers during one `vdev_disk_open`: the handle of a successful
`ZwCreateFile` (`none`: any failure status), the file object of a successful
`ObReferenceObjectByHandle`, and the device object servicing it. -/
structure OsOpen where
  ZwCreateFile : Option Nat
  ObReferenceObjectByHandle : Option Nat
  IoGetRelatedDeviceObject : Nat
deriving DecidableEq, Repr

/-- The result of one `vdev_disk_open`: the return value, the device after the
call, the output parameters after the call, and the calls made. -/
structure open_result where
  error : Int
  vd : vdev_t
  out : open_out
  trace : List Call
deriving DecidableEq, Repr

/-! ## Allocation of the adapter state -/

/-- The function `vdev_disk_alloc`: `vd->vdev_tsd = kmem_zalloc(...)`, every field zero. -/
def vdev_disk_alloc (vd : vdev_t) : vdev_t × List Call :=
  ({ vd with vdev_tsd := some { vd_lh := none, vd_FileObject := none,
                                vd_DeviceObject := none, vd_ldi_offline := false } },
   [Call.kmem_zalloc_vdev_disk_t])

/-- The function `vdev_disk_free`: nothing when `vdev_tsd` is NULL, else free it and
set it to NULL. -/
def vdev_disk_free (vd : vdev_t) : vdev_t × List Call :=
  match vd.vdev_tsd with
  | none => (vd, [])
  | some _ => ({ vd with vdev_tsd := none }, [Call.kmem_free_vdev_disk_t])

/-! ## Opening -/

/-- The character `s[0]` of a C string: NUL for the empty string. -/
def first_char (s : List Char) : Char := s.headD (Char.ofNat 0)

/-- The loop `while (end && end[0] == '#') end++;`. -/
def skip_hashes (s : List Char) : List Char := s.dropWhile (fun c => c == '#')

/-- The literal that `strncmp` compares the first four characters against:
backslash, backslash, question mark, backslash. -/
def userland_prefix : List Char := [Char.ofNat 92, Char.ofNat 92, '?', Char.ofNat 92]

/-- The test `!strncmp(lit, FileName, 4)` followed by `FileName[1] = '?'`. -/
def kernel_file_name (FileName : List Char) : List Char :=
  if FileName.take 4 = userland_prefix then FileName.set 1 '?' else FileName

/-- The block "Check for partition encoded paths" of `vdev_disk_open`: the
window offset and length after the two `ddi_strtoull` calls, and `FileName`
(a suffix of the path). For a path that does not start with `#` the window is
untouched and `FileName` is the path. -/
def parse_path (E : Env) (vd : vdev_t) (path : List Char) : Nat × Nat × List Char :=
  if first_char path = '#' then
    let e1 := skip_hashes path
    let r1 := E.ddi_strtoull e1
    let off := match r1.1 with
      | some v => v % 2 ^ 64
      | none => vd.vdev_win_offset
    let e2 := skip_hashes (e1.drop r1.2)
    let r2 := E.ddi_strtoull e2
    let len := match r2.1 with
      | some v => v % 2 ^ 64
      | none => vd.vdev_win_length
    (off, len, skip_hashes (e2.drop r2.2))
  else
    (vd.vdev_win_offset, vd.vdev_win_length, path)

/-- The label `skip_open:` to the end of `vdev_disk_open` (the `#if 0` block is
not compiled): `blksz` and `pbsize` are still 0 here, so both become `DEV_BSIZE`. -/
def vdev_disk_open_skip_open (vd : vdev_t) (out : open_out) (tr : List Call) : open_result :=
  let pbsize : Nat := 0
  let psize := if vd.vdev_win_length ≠ 0 then vd.vdev_win_length else out.psize
  let pbsize := if pbsize = 0 then DEV_BSIZE else pbsize
  { error := 0
    vd := { vd with vdev_nowritecache := false, vdev_nonrot := false }
    out := { psize := psize
             max_psize := psize
             ashift := (highbit64 (max pbsize SPA_MINBLOCKSIZE) + 2 ^ 64 - 1) % 2 ^ 64 }
    trace := tr }

/-- From "Create vd->vdev_tsd" to just before `skip_open:`: allocate the
adapter state, find the file name, copy it into the fixed buffers, open it, and
take the two object references.

`NameLength` is a `USHORT`, so it is `strlen(FileName)` modulo 2^16. The only
guard of `memmove(AnsiName, FileName, NameLength)` into `CHAR AnsiName[PATH_MAX]`
and of the conversion into `SHORT UnicodeName[PATH_MAX]` is
`ASSERT(NameLength < PATH_MAX)`, which a release build compiles out: when
`PATH_MAX ≤ NameLength` the name does not fit and the C code has no defined
behaviour. The run is not followed past that point: the trace ends with
`AnsiName_overrun`, no OS call is recorded, and the result holds the values at
that point (the local `error` still has its initial value `EINVAL`). -/
def vdev_disk_open_device (E : Env) (os : OsOpen) (vd : vdev_t) (path : List Char)
    (out : open_out) (tr : List Call) : open_result :=
  let a := vdev_disk_alloc vd
  let vd := a.1
  let tr := tr ++ a.2
  let dvd : vdev_disk_t := { vd_lh := none, vd_FileObject := none,
                             vd_DeviceObject := none, vd_ldi_offline := false }
  let p := parse_path E vd path
  let FileName := kernel_file_name p.2.2
  let vd := { vd with vdev_win_offset := p.1, vdev_win_length := p.2.1,
                      vdev_path := some (path.take (path.length - FileName.length) ++ FileName) }
  let NameLength := FileName.length % 2 ^ 16
  if E.PATH_MAX ≤ NameLength then
    { error := EINVAL, vd := vd, out := out, trace := tr ++ [Call.AnsiName_overrun] }
  else
    let AnsiName := FileName.take NameLength
    let tr := tr ++ [Call.RtlAnsiStringToUnicodeString AnsiName,
                     Call.ZwCreateFile AnsiName vd.spa_mode_FREAD os.ZwCreateFile]
    match os.ZwCreateFile with
    | none =>
      { error := EINVAL
        vd := { vd with vdev_tsd := some { dvd with vd_lh := none },
                        vs_aux := vdev_aux_t.VDEV_AUX_OPEN_FAILED }
        out := out
        trace := tr }
    | some h =>
      let dvd := { dvd with vd_lh := some h }
      let vd := { vd with vdev_tsd := some dvd,
                          vdev_wholedisk := if vd.vdev_wholedisk = 2 ^ 64 - 1 then 0
                                            else vd.vdev_wholedisk }
      let tr := tr ++ [Call.ObReferenceObjectByHandle dvd.vd_lh os.ObReferenceObjectByHandle]
      match os.ObReferenceObjectByHandle with
      | none =>
        { error := EIO
          vd := { vd with vdev_tsd := some { dvd with vd_lh := none },
                          vs_aux := vdev_aux_t.VDEV_AUX_OPEN_FAILED }
          out := out
          trace := tr ++ [Call.ZwClose dvd.vd_lh] }
      | some FileObject =>
        let DeviceObject := os.IoGetRelatedDeviceObject
        let tr := tr ++ [Call.IoGetRelatedDeviceObject FileObject,
                         Call.ObReferenceObject DeviceObject]
        let dvd := { dvd with vd_FileObject := some FileObject,
                              vd_DeviceObject := some DeviceObject }
        vdev_disk_open_skip_open { vd with vdev_tsd := some dvd } out tr

/-- The function `vdev_disk_open`. -/
def vdev_disk_open (E : Env) (os : OsOpen) (vd : vdev_t) (out : open_out) : open_result :=
  let bad : open_result :=
    { error := EINVAL
      vd := { vd with vs_aux := vdev_aux_t.VDEV_AUX_BAD_LABEL }
      out := out
      trace := [] }
  match vd.vdev_path with
  | none => bad
  | some path =>
    if first_char path ≠ '/' ∧ first_char path ≠ '#' then bad
    else
      match vd.vdev_tsd with
      | some dvd =>
        if dvd.vd_ldi_offline = true ∧ dvd.vd_lh = none then
          let f := vdev_disk_free vd
          vdev_disk_open_device E os f.1 path out f.2
        else
          vdev_disk_open_skip_open vd out []
      | none => vdev_disk_open_device E os vd path out []

/-! ## Closing -/

/-- The function `vdev_disk_close`. -/
def vdev_disk_close (vd : vdev_t) : vdev_t × List Call :=
  match vd.vdev_tsd with
  | none => (vd, [])
  | some dvd =>
    if vd.vdev_reopening then (vd, [])
    else
      let vd := { vd with vdev_delayed_close := false }
      if dvd.vd_ldi_offline then (vd, [])
      else
        let tr := match dvd.vd_lh with
          | some h => [Call.ObDereferenceObject dvd.vd_FileObject,
                       Call.ObDereferenceObject dvd.vd_DeviceObject,
                       Call.ZwClose (some h)]
          | none => []
        let dvd := { dvd with vd_lh := none, vd_FileObject := none, vd_DeviceObject := none }
        let f := vdev_disk_free { vd with vdev_tsd := some dvd }
        (f.1, tr ++ f.2)

/-! ## Submitting a request -/

/-- What the OS and the buffer layer answer during one `vdev_disk_io_start`:
the address of the raw view that `abd_borrow_buf` / `abd_borrow_buf_copy`
returns, whether `IoBuildAsynchronousFsdRequest` returns a request (`false`:
NULL), and the address `IoGetNextIrpStackLocation` returns. -/
structure OsIo where
  abd_borrow : Nat
  IoBuildAsynchronousFsdRequest : Bool
  IoGetNextIrpStackLocation : Nat
deriving DecidableEq, Repr

/-- What the OS reports when a request completes: `irp->IoStatus.Status`,
`irp->IoStatus.Information` (bytes transferred) and the length of the MDL chain
hanging off the request. -/
structure OsDone where
  Status : Int
  Information : Nat
  MdlCount : Nat
deriving DecidableEq, Repr

/-- The result of one `vdev_disk_io_start`: the request after the call, the
calls made, and the record given to the waiter thread when one was created. -/
structure io_start_result where
  zio : zio_t
  trace : List Call
  vb : Option vd_callback_t
deriving DecidableEq, Repr

/-- The part of `vdev_disk_io_start` after the `switch (zio->io_type)`, reached
for READ and WRITE with the `flags` the switch chose. The `ASSERT`s are
compiled out of a release build and are not modelled; `offset.QuadPart` is kept
as its 64-bit pattern. -/
def vdev_disk_io_start_rw (E : Env) (os : OsIo) (vd : vdev_t) (dvd : vdev_disk_t)
    (zio : zio_t) (flags : Nat) : io_start_result :=
  let flags := flags ||| (E.B_NOCACHE ||| E.B_PASSIVE)
  let zio := { zio with io_target_timestamp := E.zio_handle_io_delay zio }
  let offset := (zio.io_offset + vd.vdev_win_offset) % 2 ^ 64
  let tr := [Call.kmem_alloc_vd_callback_t]
  let tr := tr ++
    [if zio.io_type = zio_type_t.ZIO_TYPE_READ then Call.abd_borrow_buf zio.io_abd_size
     else Call.abd_borrow_buf_copy zio.io_abd_size]
  let b_addr := os.abd_borrow
  let tr := tr ++ [Call.KeInitializeEvent]
  let major := if flags &&& E.B_READ ≠ 0 then irp_major.IRP_MJ_READ else irp_major.IRP_MJ_WRITE
  let tr := tr ++ [Call.IoBuildAsynchronousFsdRequest major dvd.vd_DeviceObject b_addr
                     (zio.io_size % 2 ^ 32) offset os.IoBuildAsynchronousFsdRequest]
  if os.IoBuildAsynchronousFsdRequest = false then
    { zio := { zio with io_error := EIO }
      trace := tr ++ [Call.kmem_free_vd_callback_t, Call.zio_interrupt]
      vb := none }
  else
    let tr := tr ++ [Call.IoGetNextIrpStackLocation]
    if os.IoGetNextIrpStackLocation = 2 ^ 64 - 1 then
      { zio := zio, trace := tr ++ [Call.kernel_panic], vb := none }
    else
      let irp : irp_t :=
        { MajorFunction := major
          DeviceObject := dvd.vd_DeviceObject
          Buffer := b_addr
          Length := zio.io_size % 2 ^ 32
          ByteOffset := offset
          FileObject := dvd.vd_FileObject }
      { zio := zio
        trace := tr ++ [Call.IoSetCompletionRoutine, Call.thread_create,
                        Call.IoCallDriver dvd.vd_DeviceObject irp]
        vb := some { b_addr := b_addr, irp := irp } }

/-- The function `vdev_disk_io_start`. -/
def vdev_disk_io_start (E : Env) (os : OsIo) (vd : vdev_t) (zio : zio_t) : io_start_result :=
  let unavailable : io_start_result :=
    { zio := { zio with io_error := ENXIO }, trace := [Call.zio_interrupt], vb := none }
  match vd.vdev_tsd with
  | none => unavailable
  | some dvd =>
    if dvd.vd_ldi_offline then unavailable
    else
      match zio.io_type with
      | zio_type_t.ZIO_TYPE_IOCTL =>
        if E.vdev_readable vd = false then
          { zio := { zio with io_error := ENXIO }, trace := [Call.zio_interrupt], vb := none }
        else if zio.io_cmd = E.DKIOCFLUSHWRITECACHE then
          if E.zfs_nocacheflush then
            { zio := zio, trace := [Call.zio_execute], vb := none }
          else if vd.vdev_nowritecache then
            { zio := { zio with io_error := ENOTSUP }, trace := [Call.zio_execute], vb := none }
          else
            { zio := { zio with
                         io_vsd := some { dkc_callback := dkc_callback_fn.vdev_disk_ioctl_done }
                         io_vsd_ops := some zio_vsd_ops_t.vdev_disk_vsd_ops }
              trace := [Call.kmem_alloc_dk_callback, Call.zio_execute]
              vb := none }
        else
          { zio := { zio with io_error := ENOTSUP }, trace := [Call.zio_execute], vb := none }
      | zio_type_t.ZIO_TYPE_WRITE =>
        vdev_disk_io_start_rw E os vd dvd zio
          (if zio.io_priority = zio_priority_t.ZIO_PRIORITY_SYNC_WRITE then E.B_WRITE
           else E.B_WRITE ||| E.B_ASYNC)
      | zio_type_t.ZIO_TYPE_READ =>
        vdev_disk_io_start_rw E os vd dvd zio
          (if zio.io_priority = zio_priority_t.ZIO_PRIORITY_SYNC_READ then E.B_READ
           else E.B_READ ||| E.B_ASYNC)
      | _ =>
        { zio := { zio with io_error := ENOTSUP }, trace := [Call.zio_execute], vb := none }

/-! ## Completion -/

/-- The cast `(int64_t)x` that `VERIFY3S` applies to both operands. -/
def int64 (x : Nat) : Int :=
  if x % 2 ^ 64 < 2 ^ 63 then ((x % 2 ^ 64 : Nat) : Int) else ((x % 2 ^ 64 : Nat) : Int) - 2 ^ 64

/-- The loop `while (irp->MdlAddress != NULL)` over an MDL chain of length `n`. -/
def release_mdls : Nat → List Call
  | 0 => []
  | n + 1 => Call.MmUnlockPages :: Call.IoFreeMdl :: release_mdls n

/-- The waiter `vdev_disk_io_intr`, run on the record `vb` of request `zio` once
the OS has completed it with `done`. A failed `VERIFY3S` ends the trace with
`kernel_panic`. -/
def vdev_disk_io_intr (zio : zio_t) (vb : vd_callback_t) (done : OsDone) : zio_t × List Call :=
  let tr := [Call.KeWaitForSingleObject]
  let zio := { zio with io_error := if done.Status ≠ 0 then EIO else 0 }
  if int64 zio.io_abd_size < int64 zio.io_size then
    (zio, tr ++ [Call.kernel_panic])
  else
    let tr := tr ++
      [if zio.io_type = zio_type_t.ZIO_TYPE_READ then
         Call.abd_return_buf_copy_off vb.b_addr 0 zio.io_size zio.io_abd_size
       else
         Call.abd_return_buf_off vb.b_addr 0 zio.io_size zio.io_abd_size]
    let tr := tr ++ release_mdls done.MdlCount ++ [Call.IoFreeIrp]
    (zio, tr ++ [Call.kmem_free_vd_callback_t, Call.zio_delay_interrupt, Call.thread_exit])

/-- One request from submission to completion: `vdev_disk_io_start`, then, when
it created the waiter thread (`thread_create(..., vdev_disk_io_intr, vb, ...)`),
the body of that thread on the OS completion `done`. -/
def vdev_disk_io (E : Env) (os : OsIo) (done : OsDone) (vd : vdev_t) (zio : zio_t) :
    zio_t × List Call :=
  let s := vdev_disk_io_start E os vd zio
  match s.vb with
  | none => (s.zio, s.trace)
  | some vb =>
    let w := vdev_disk_io_intr s.zio vb done
    (w.1, s.trace ++ w.2)

/-- The function `vdev_disk_io_done`. -/
def vdev_disk_io_done (vd : vdev_t) (zio : zio_t) : vdev_t :=
  if zio.io_error = EIO ∧ vd.vdev_remove_wanted = false then
    vd
  else if vd.vdev_delayed_close = false then
    { vd with vdev_delayed_close := true }
  else
    vd

/-! ## Reading a trace -/

/-- Whether a call borrows a raw view from the abstract buffer. -/
def Call.isBorrow : Call → Bool
  | Call.abd_borrow_buf _ => true
  | Call.abd_borrow_buf_copy _ => true
  | _ => false

/-- Whether a call returns a raw view to the abstract buffer. -/
def Call.isReturn : Call → Bool
  | Call.abd_return_buf_copy_off _ _ _ _ => true
  | Call.abd_return_buf_off _ _ _ _ => true
  | _ => false

/-- Whether a call resumes the pipeline. -/
def Call.isResume : Call → Bool
  | Call.zio_interrupt => true
  | Call.zio_execute => true
  | Call.zio_delay_interrupt => true
  | _ => false

/-- Whether a call allocates kernel memory. -/
def Call.isAlloc : Call → Bool
  | Call.kmem_zalloc_vdev_disk_t => true
  | Call.kmem_alloc_dk_callback => true
  | Call.kmem_alloc_vd_callback_t => true
  | _ => false

/-- Whether a call goes to the OS (object manager, I/O manager, kernel events,
runtime library) or creates a thread. -/
def Call.isOs : Call → Bool
  | Call.RtlAnsiStringToUnicodeString _ => true
  | Call.ZwCreateFile _ _ _ => true
  | Call.ObReferenceObjectByHandle _ _ => true
  | Call.IoGetRelatedDeviceObject _ => true
  | Call.ObReferenceObject _ => true
  | Call.ObDereferenceObject _ => true
  | Call.ZwClose _ => true
  | Call.KeInitializeEvent => true
  | Call.IoBuildAsynchronousFsdRequest _ _ _ _ _ _ => true
  | Call.IoGetNextIrpStackLocation => true
  | Call.IoSetCompletionRoutine => true
  | Call.thread_create => true
  | Call.IoCallDriver _ _ => true
  | Call.KeWaitForSingleObject => true
  | Call.MmUnlockPages => true
  | Call.IoFreeMdl => true
  | Call.IoFreeIrp => true
  | _ => false

/-- The bytes a trace asks the buffer layer to copy from a raw view back into
the abstract buffer: the `len` arguments of its `abd_return_buf_copy_off`
calls, summed (`abd_return_buf_off` is the variant that copies nothing back). -/
def bytes_copied_back : List Call → Nat
  | [] => 0
  | Call.abd_return_buf_copy_off _ _ len _ :: t => len + bytes_copied_back t
  | _ :: t => bytes_copied_back t

/-- Whether a call is `ZwCreateFile`. -/
def Call.isZwCreateFile : Call → Bool
  | Call.ZwCreateFile _ _ _ => true
  | _ => false

/-! ## The file name of an open, described on the path alone -/

/-- The text left of a partition-encoded path `#<offset>#<length>#<rest>` once
its fields are scanned: drop the leading `#`s, drop what `ddi_strtoull` consumes
as the offset, drop the `#`s, drop what `ddi_strtoull` consumes as the length,
drop the `#`s. -/
def text_after_fields (E : Env) (p : List Char) : List Char :=
  let a := p.dropWhile (fun c => c == '#')
  let b := (a.drop (E.ddi_strtoull a).2).dropWhile (fun c => c == '#')
  (b.drop (E.ddi_strtoull b).2).dropWhile (fun c => c == '#')

/-- The file name an open of path `p` is about: the text after the fields for a
path starting with `#`, the path itself otherwise, with `kernel_file_name`
applied. -/
def open_file_name (E : Env) (p : List Char) : List Char :=
  kernel_file_name (if first_char p = '#' then text_after_fields E p else p)

/-- The name an open of path `p` gives the OS: the file name cut to its length
modulo 2^16 (the `USHORT NameLength`). -/
def open_os_name (E : Env) (p : List Char) : List Char :=
  (open_file_name E p).take ((open_file_name E p).length % 2 ^ 16)

/-! ## Sequences of open and close -/

/-- One call made through the operation table `vdev_disk_ops`, with the value
that `vd->vdev_reopening` holds when the call is made; an open also carries what
the OS answers during it. -/
inductive vdev_op where
  | vdev_op_open (reopening : Bool) (os : OsOpen)
  | vdev_op_close (reopening : Bool)
deriving DecidableEq, Repr

/-- The device after one call of the operation table. -/
def vdev_op_step (E : Env) (out : open_out) (vd : vdev_t) : vdev_op → vdev_t
  | vdev_op.vdev_op_open r os => (vdev_disk_open E os { vd with vdev_reopening := r } out).vd
  | vdev_op.vdev_op_close r => (vdev_disk_close { vd with vdev_reopening := r }).1

/-- The device after a sequence of calls of the operation table, first call
first. -/
def vdev_op_run (E : Env) (out : open_out) (vd : vdev_t) (ops : List vdev_op) : vdev_t :=
  ops.foldl (vdev_op_step E out) vd

/-! ## Sample inputs -/

/-- Modelled from the spec: `ddi_strtoull` is declared outside this file; the
fields of a partition-encoded path are "parsed by scanning digits after each
`#`". The value of the leading run of decimal digits, and the length of that
run. -/
def ddi_strtoull_decimal (s : List Char) : Option Nat × Nat :=
  let ds := s.takeWhile Char.isDigit
  (some (ds.foldl (fun a c => 10 * a + (c.toNat - 48)) 0), ds.length)

/-- A sample environment: decimal `ddi_strtoull`, every device readable, no
injected delay, flush suppression off, distinct single-bit buffer flags, and
name buffers of 1024 characters. -/
def sample_env : Env :=
  { ddi_strtoull := ddi_strtoull_decimal
    vdev_readable := fun _ => true
    zio_handle_io_delay := fun _ => 0
    zfs_nocacheflush := false
    B_READ := 1
    B_WRITE := 0
    B_ASYNC := 4
    B_NOCACHE := 8
    B_PASSIVE := 16
    DKIOCFLUSHWRITECACHE := 34
    PATH_MAX := 1024 }

/-- A never-opened device with the path `/dev/disk1`. -/
def sample_vdev : vdev_t :=
  { vdev_path := some "/dev/disk1".toList
    vdev_tsd := none
    vdev_reopening := false
    vs_aux := vdev_aux_t.VDEV_AUX_NONE
    vdev_win_offset := 0
    vdev_win_length := 0
    vdev_wholedisk := 2 ^ 64 - 1
    vdev_nowritecache := false
    vdev_nonrot := false
    vdev_delayed_close := false
    vdev_remove_wanted := false
    spa_mode_FREAD := false }

/-- The adapter state of a device opened with handle 7, file object 8 and
device object 9. -/
def sample_dvd : vdev_disk_t :=
  { vd_lh := some 7, vd_FileObject := some 8, vd_DeviceObject := some 9, vd_ldi_offline := false }

/-- A 512-byte synchronous read at offset 4096 from a 512-byte buffer. -/
def sample_zio : zio_t :=
  { io_type := zio_type_t.ZIO_TYPE_READ
    io_cmd := 0
    io_priority := zio_priority_t.ZIO_PRIORITY_SYNC_READ
    io_offset := 4096
    io_size := 512
    io_abd_size := 512
    io_error := 0
    io_vsd := none
    io_vsd_ops := none
    io_target_timestamp := 0 }

/-- Output parameters before a call, holding recognisable values. -/
def sample_out : open_out := { psize := 11, max_psize := 12, ashift := 13 }

/-! ## Theorems -/

/-- The `FileName` that `vdev_disk_open` computes from the path does not depend
on the device: it is `open_file_name` of the path. -/
theorem parse_path_file_name (E : Env) (vd : vdev_t) (p : List Char) :
    kernel_file_name (parse_path E vd p).2.2 = open_file_name E p := by
  by_cases h : first_char p = '#' <;>
    simp [parse_path, open_file_name, text_after_fields, skip_hashes, h]

/-- C1: a request of any type submitted while the adapter state is absent
(`vdev_tsd` NULL) or offline (`vd_ldi_offline`) gets `io_error = ENXIO` and
nothing else in it changes; the only call made is one `zio_interrupt`, so no
buffer is borrowed, nothing is allocated, no thread is created, no OS call is
made, and no record for a waiter exists. -/
theorem io_start_unavailable_fails (E : Env) (os : OsIo) (vd : vdev_t) (zio : zio_t)
    (h : vd.vdev_tsd = none ∨ ∃ dvd, vd.vdev_tsd = some dvd ∧ dvd.vd_ldi_offline = true) :
    (vdev_disk_io_start E os vd zio).zio = { zio with io_error := ENXIO } ∧
    (vdev_disk_io_start E os vd zio).zio.io_error = ENXIO ∧
    (vdev_disk_io_start E os vd zio).trace = [Call.zio_interrupt] ∧
    (vdev_disk_io_start E os vd zio).vb = none ∧
    (vdev_disk_io_start E os vd zio).trace.countP Call.isResume = 1 ∧
    (vdev_disk_io_start E os vd zio).trace.countP Call.isBorrow = 0 ∧
    (vdev_disk_io_start E os vd zio).trace.countP Call.isAlloc = 0 ∧
    (vdev_disk_io_start E os vd zio).trace.countP Call.isOs = 0 := by
  have key : vdev_disk_io_start E os vd zio =
      { zio := { zio with io_error := ENXIO }, trace := [Call.zio_interrupt], vb := none } := by
    rcases h with h | ⟨dvd, h, hoff⟩
    · simp [vdev_disk_io_start, h]
    · simp [vdev_disk_io_start, h, hoff]
  rw [key]
  simp [Call.isResume, Call.isBorrow, Call.isAlloc, Call.isOs]

/-- Witness of C1 on an offline device and on a never-opened one. -/
theorem io_start_unavailable_fails_witness :
    (vdev_disk_io_start sample_env ⟨1, true, 2⟩
        { sample_vdev with vdev_tsd := some { sample_dvd with vd_ldi_offline := true } }
        sample_zio).trace = [Call.zio_interrupt] ∧
    (vdev_disk_io_start sample_env ⟨1, true, 2⟩ sample_vdev sample_zio).zio.io_error = ENXIO :=
  ⟨(io_start_unavailable_fails sample_env ⟨1, true, 2⟩
      { sample_vdev with vdev_tsd := some { sample_dvd with vd_ldi_offline := true } }
      sample_zio (Or.inr ⟨_, rfl, rfl⟩)).2.2.1,
   (io_start_unavailable_fails sample_env ⟨1, true, 2⟩ sample_vdev sample_zio
      (Or.inl rfl)).2.1⟩

/-- C2: when the path is NULL, empty, or starts with neither `/` nor `#`,
`vdev_disk_open` returns `EINVAL`, records `VDEV_AUX_BAD_LABEL` and changes
nothing else of the device (so no adapter state is allocated), makes no call at
all, and leaves the three output parameters as they were. -/
theorem open_malformed_path_fails (E : Env) (os : OsOpen) (vd : vdev_t) (out : open_out)
    (h : vd.vdev_path = none ∨ vd.vdev_path = some [] ∨
         ∃ p, vd.vdev_path = some p ∧ first_char p ≠ '/' ∧ first_char p ≠ '#') :
    (vdev_disk_open E os vd out).error = EINVAL ∧
    (vdev_disk_open E os vd out).vd = { vd with vs_aux := vdev_aux_t.VDEV_AUX_BAD_LABEL } ∧
    (vdev_disk_open E os vd out).vd.vdev_tsd = vd.vdev_tsd ∧
    (vdev_disk_open E os vd out).trace = [] ∧
    (vdev_disk_open E os vd out).out = out := by
  have key : vdev_disk_open E os vd out =
      { error := EINVAL, vd := { vd with vs_aux := vdev_aux_t.VDEV_AUX_BAD_LABEL },
        out := out, trace := [] } := by
    rcases h with h | h | ⟨p, h, h1, h2⟩
    · simp [vdev_disk_open, h]
    · simp [vdev_disk_open, h, first_char]
    · simp [vdev_disk_open, h, h1, h2]
  rw [key]
  simp

/-- Witness of C2 on a NULL path, an empty path and a relative path. -/
theorem open_malformed_path_fails_witness :
    (vdev_disk_open sample_env ⟨some 7, some 8, 9⟩
        { sample_vdev with vdev_path := none } sample_out).trace = [] ∧
    (vdev_disk_open sample_env ⟨some 7, some 8, 9⟩
        { sample_vdev with vdev_path := some [] } sample_out).error = EINVAL ∧
    (vdev_disk_open sample_env ⟨some 7, some 8, 9⟩
        { sample_vdev with vdev_path := some ['d', 'i', 's', 'k'] } sample_out).out = sample_out :=
  ⟨(open_malformed_path_fails sample_env ⟨some 7, some 8, 9⟩
      { sample_vdev with vdev_path := none } sample_out (Or.inl rfl)).2.2.2.1,
   (open_malformed_path_fails sample_env ⟨some 7, some 8, 9⟩
      { sample_vdev with vdev_path := some [] } sample_out (Or.inr (Or.inl rfl))).1,
   (open_malformed_path_fails sample_env ⟨some 7, some 8, 9⟩
      { sample_vdev with vdev_path := some ['d', 'i', 's', 'k'] } sample_out
      (Or.inr (Or.inr ⟨_, rfl, by decide, by decide⟩))).2.2.2.2⟩

/-- A file name that does not fit the name buffers: with `PATH_MAX = 10` the
10-character name `/dev/disk1` ends the run at `AnsiName_overrun`, before any OS
call; with `PATH_MAX = 11` the same open goes through. -/
theorem open_name_too_long_is_not_followed :
    (vdev_disk_open { sample_env with PATH_MAX := 10 } ⟨some 7, some 8, 9⟩
        sample_vdev sample_out).trace
      = [Call.kmem_zalloc_vdev_disk_t, Call.AnsiName_overrun] ∧
    (vdev_disk_open { sample_env with PATH_MAX := 11 } ⟨some 7, some 8, 9⟩
        sample_vdev sample_out).error = 0 := by
  constructor <;> decide

/-- C4: the lease is not returned when the OS request cannot be built. A
512-byte read on an open device for which `IoBuildAsynchronousFsdRequest`
returns NULL borrows the raw view once and returns it never: the run ends
inline with `io_error = EIO` and one `zio_interrupt`, after freeing only the
callback record. -/
theorem io_build_failure_leaks_lease :
    (vdev_disk_io sample_env ⟨100, false, 0⟩ ⟨0, 512, 1⟩
        { sample_vdev with vdev_tsd := some sample_dvd } sample_zio).2
      = [Call.kmem_alloc_vd_callback_t, Call.abd_borrow_buf 512, Call.KeInitializeEvent,
         Call.IoBuildAsynchronousFsdRequest irp_major.IRP_MJ_READ (some 9) 100 512 4096 false,
         Call.kmem_free_vd_callback_t, Call.zio_interrupt] ∧
    (vdev_disk_io sample_env ⟨100, false, 0⟩ ⟨0, 512, 1⟩
        { sample_vdev with vdev_tsd := some sample_dvd } sample_zio).2.countP Call.isBorrow = 1 ∧
    (vdev_disk_io sample_env ⟨100, false, 0⟩ ⟨0, 512, 1⟩
        { sample_vdev with vdev_tsd := some sample_dvd } sample_zio).2.countP Call.isReturn = 0 ∧
    (vdev_disk_io sample_env ⟨100, false, 0⟩ ⟨0, 512, 1⟩
        { sample_vdev with vdev_tsd := some sample_dvd } sample_zio).1.io_error = EIO := by
  refine ⟨?_, ?_, ?_, ?_⟩ <;> decide

/-- On the path where the OS request is built and handed to the driver, and the
buffer is at least as large as the request, a READ or WRITE run borrows the raw
view once and the waiter returns it once, whatever the OS completion is. -/
theorem io_waiter_returns_lease (E : Env) (os : OsIo) (done : OsDone) (vd : vdev_t)
    (dvd : vdev_disk_t) (zio : zio_t)
    (ht : vd.vdev_tsd = some dvd) (hoff : dvd.vd_ldi_offline = false)
    (hty : zio.io_type = zio_type_t.ZIO_TYPE_READ ∨ zio.io_type = zio_type_t.ZIO_TYPE_WRITE)
    (hb : os.IoBuildAsynchronousFsdRequest = true)
    (hs : os.IoGetNextIrpStackLocation ≠ 2 ^ 64 - 1)
    (hsz : ¬ int64 zio.io_abd_size < int64 zio.io_size) :
    (vdev_disk_io E os done vd zio).2.countP Call.isBorrow = 1 ∧
    (vdev_disk_io E os done vd zio).2.countP Call.isReturn = 1 := by
  have hm : ∀ n, (release_mdls n).countP Call.isReturn = 0 ∧
      (release_mdls n).countP Call.isBorrow = 0 := by
    intro n
    induction n with
    | zero => simp [release_mdls]
    | succ k ih => simp [release_mdls, List.countP_cons, Call.isReturn, Call.isBorrow, ih]
  have hs2 : ¬ os.IoGetNextIrpStackLocation = 18446744073709551615 := by
    simpa using hs
  rcases hty with h | h <;>
    simp [vdev_disk_io, vdev_disk_io_start, vdev_disk_io_start_rw, vdev_disk_io_intr, ht, hoff,
      h, hb, hs2, hsz, List.countP_cons, List.countP_append, Call.isBorrow, Call.isReturn, hm]

/-- The built-request path on the sample read: one borrow, one return. -/
theorem io_waiter_returns_lease_witness :
    (vdev_disk_io sample_env ⟨100, true, 0⟩ ⟨0, 512, 1⟩
        { sample_vdev with vdev_tsd := some sample_dvd } sample_zio).2.countP Call.isBorrow = 1 ∧
    (vdev_disk_io sample_env ⟨100, true, 0⟩ ⟨0, 512, 1⟩
        { sample_vdev with vdev_tsd := some sample_dvd } sample_zio).2.countP Call.isReturn = 1 :=
  io_waiter_returns_lease sample_env ⟨100, true, 0⟩ ⟨0, 512, 1⟩
    { sample_vdev with vdev_tsd := some sample_dvd } sample_dvd sample_zio rfl rfl (Or.inl rfl)
    rfl (by decide) (by decide)

/-- C5 as stated fails: a 512-byte read of which the OS reports 100 bytes
transferred has 512 bytes copied back by the waiter, not min(100, 512) = 100. -/
theorem short_read_copies_whole_request :
    ¬ (bytes_copied_back (vdev_disk_io_intr sample_zio
          ⟨100, ⟨irp_major.IRP_MJ_READ, some 9, 100, 512, 4096, some 8⟩⟩ ⟨0, 100, 1⟩).2
        = min 100 sample_zio.io_size) := by
  decide

/-- C5 amended: for a READ request whose buffer holds at least the request size,
the waiter copies back exactly `io_size` bytes, whatever status, byte count and
MDL chain the OS reports. -/
theorem read_copies_back_request_size (zio : zio_t) (vb : vd_callback_t) (done : OsDone)
    (hty : zio.io_type = zio_type_t.ZIO_TYPE_READ)
    (hsz : ¬ int64 zio.io_abd_size < int64 zio.io_size) :
    bytes_copied_back (vdev_disk_io_intr zio vb done).2 = zio.io_size := by
  have hm : ∀ (n : Nat) (t : List Call),
      bytes_copied_back (release_mdls n ++ t) = bytes_copied_back t := by
    intro n t
    induction n with
    | zero => simp [release_mdls]
    | succ k ih => simp [release_mdls, bytes_copied_back, ih]
  simp [vdev_disk_io_intr, hty, hsz, bytes_copied_back, hm]

/-- Witness of C5 amended: the short read of 100 bytes out of 512. -/
theorem read_copies_back_request_size_witness :
    bytes_copied_back (vdev_disk_io_intr sample_zio
        ⟨100, ⟨irp_major.IRP_MJ_READ, some 9, 100, 512, 4096, some 8⟩⟩ ⟨0, 100, 1⟩).2 = 512 :=
  read_copies_back_request_size sample_zio
    ⟨100, ⟨irp_major.IRP_MJ_READ, some 9, 100, 512, 4096, some 8⟩⟩ ⟨0, 100, 1⟩ rfl (by decide)

/-- C6: for a flush request on an available, readable device, the two cases
taken in the order the claim gives them: with flush suppression on, the request
is left untouched (so `io_error` stays as it was, 0 if it was 0) and the only
call is one `zio_execute`; otherwise, with the device marked no-write-cache,
`io_error` becomes `ENOTSUP` and the only call is one `zio_execute`. In both
cases the pipeline is resumed exactly once,
nothing is allocated, no OS call is made and no waiter exists. -/
theorem flush_suppressed_or_unsupported (E : Env) (os : OsIo) (vd : vdev_t) (dvd : vdev_disk_t)
    (zio : zio_t)
    (ht : vd.vdev_tsd = some dvd) (hoff : dvd.vd_ldi_offline = false)
    (hty : zio.io_type = zio_type_t.ZIO_TYPE_IOCTL)
    (hcmd : zio.io_cmd = E.DKIOCFLUSHWRITECACHE)
    (hrd : E.vdev_readable vd = true)
    (hcase : E.zfs_nocacheflush = true ∨ vd.vdev_nowritecache = true) :
    (E.zfs_nocacheflush = true →
        (vdev_disk_io_start E os vd zio).zio = zio ∧
        (zio.io_error = 0 → (vdev_disk_io_start E os vd zio).zio.io_error = 0)) ∧
    (E.zfs_nocacheflush = false → vd.vdev_nowritecache = true →
        (vdev_disk_io_start E os vd zio).zio = { zio with io_error := ENOTSUP } ∧
        (vdev_disk_io_start E os vd zio).zio.io_error = ENOTSUP) ∧
    (vdev_disk_io_start E os vd zio).trace = [Call.zio_execute] ∧
    (vdev_disk_io_start E os vd zio).vb = none ∧
    (vdev_disk_io_start E os vd zio).trace.countP Call.isResume = 1 ∧
    (vdev_disk_io_start E os vd zio).trace.countP Call.isAlloc = 0 ∧
    (vdev_disk_io_start E os vd zio).trace.countP Call.isOs = 0 := by
  cases hn : E.zfs_nocacheflush with
  | true =>
    simp [vdev_disk_io_start, ht, hoff, hty, hcmd, hrd, hn, Call.isResume, Call.isAlloc,
      Call.isOs]
  | false =>
    have hw : vd.vdev_nowritecache = true := by
      rcases hcase with h | h
      · rw [hn] at h
        cases h
      · exact h
    simp [vdev_disk_io_start, ht, hoff, hty, hcmd, hrd, hn, hw, Call.isResume, Call.isAlloc,
      Call.isOs]

/-- Witness of C6: a flush on a no-write-cache device with suppression off
fails `ENOTSUP`, and a flush with suppression on keeps `io_error = 0`. -/
theorem flush_suppressed_or_unsupported_witness :
    (vdev_disk_io_start sample_env ⟨100, true, 0⟩
        { sample_vdev with vdev_tsd := some sample_dvd, vdev_nowritecache := true }
        { sample_zio with io_type := zio_type_t.ZIO_TYPE_IOCTL, io_cmd := 34 }).zio.io_error
      = ENOTSUP ∧
    (vdev_disk_io_start { sample_env with zfs_nocacheflush := true } ⟨100, true, 0⟩
        { sample_vdev with vdev_tsd := some sample_dvd }
        { sample_zio with io_type := zio_type_t.ZIO_TYPE_IOCTL, io_cmd := 34 }).zio.io_error
      = 0 :=
  ⟨((flush_suppressed_or_unsupported sample_env ⟨100, true, 0⟩
      { sample_vdev with vdev_tsd := some sample_dvd, vdev_nowritecache := true } sample_dvd
      { sample_zio with io_type := zio_type_t.ZIO_TYPE_IOCTL, io_cmd := 34 }
      rfl rfl rfl rfl rfl (Or.inr rfl)).2.1 rfl rfl).2,
   ((flush_suppressed_or_unsupported { sample_env with zfs_nocacheflush := true } ⟨100, true, 0⟩
      { sample_vdev with vdev_tsd := some sample_dvd } sample_dvd
      { sample_zio with io_type := zio_type_t.ZIO_TYPE_IOCTL, io_cmd := 34 }
      rfl rfl rfl rfl rfl (Or.inl rfl)).1 rfl).2 rfl⟩

/-- C7: the delayed-close flag is set on the wrong branch. On an open device
with no removal requested and the flag clear, a request that finished with
`EIO` leaves `vdev_delayed_close` false, and a request that finished without
error sets it. -/
theorem io_done_delayed_close_inverted :
    (vdev_disk_io_done { sample_vdev with vdev_tsd := some sample_dvd }
        { sample_zio with io_error := EIO }).vdev_delayed_close = false ∧
    (vdev_disk_io_done { sample_vdev with vdev_tsd := some sample_dvd }
        { sample_zio with io_error := 0 }).vdev_delayed_close = true := by
  constructor <;> decide

/-- C8: `vdev_disk_close` is idempotent. For every device state a second close
leaves the state of the first close and makes no call at all (so no
`ObDereferenceObject` and no `ZwClose`); and a close on a device whose
`vdev_tsd` is NULL returns the device unchanged with no call. -/
theorem close_idempotent (vd : vdev_t) :
    (vdev_disk_close (vdev_disk_close vd).1).1 = (vdev_disk_close vd).1 ∧
    (vdev_disk_close (vdev_disk_close vd).1).2 = [] ∧
    (vdev_disk_close (vdev_disk_close vd).1).2.countP Call.isOs = 0 ∧
    vdev_disk_close { vd with vdev_tsd := none } = ({ vd with vdev_tsd := none }, []) := by
  have h2 : vdev_disk_close (vdev_disk_close vd).1 = ((vdev_disk_close vd).1, []) := by
    cases ht : vd.vdev_tsd with
    | none => simp [vdev_disk_close, ht]
    | some dvd =>
      cases hr : vd.vdev_reopening with
      | true => simp [vdev_disk_close, ht, hr]
      | false =>
        cases ho : dvd.vd_ldi_offline with
        | true => simp [vdev_disk_close, ht, hr, ho]
        | false => simp [vdev_disk_close, vdev_disk_free, ht, hr, ho]
  rw [h2]
  simp [vdev_disk_close]

/-- C9: for a READ or WRITE request on an available device, every request that
`vdev_disk_io_start` passes to `IoBuildAsynchronousFsdRequest` or to
`IoCallDriver` carries the byte offset `(io_offset + vdev_win_offset) mod 2^64`;
and when the OS builds the request (and the stack location is valid) such a
request is handed to the driver and recorded for the waiter. -/
theorem io_start_offset_is_biased (E : Env) (os : OsIo) (vd : vdev_t) (dvd : vdev_disk_t)
    (zio : zio_t)
    (ht : vd.vdev_tsd = some dvd) (hoff : dvd.vd_ldi_offline = false)
    (hty : zio.io_type = zio_type_t.ZIO_TYPE_READ ∨ zio.io_type = zio_type_t.ZIO_TYPE_WRITE) :
    (∀ dev irp, Call.IoCallDriver dev irp ∈ (vdev_disk_io_start E os vd zio).trace →
        irp.ByteOffset = (zio.io_offset + vd.vdev_win_offset) % 2 ^ 64) ∧
    (∀ major dev buf len offset built,
        Call.IoBuildAsynchronousFsdRequest major dev buf len offset built
            ∈ (vdev_disk_io_start E os vd zio).trace →
        offset = (zio.io_offset + vd.vdev_win_offset) % 2 ^ 64) ∧
    (os.IoBuildAsynchronousFsdRequest = true → os.IoGetNextIrpStackLocation ≠ 2 ^ 64 - 1 →
        ∃ irp, Call.IoCallDriver dvd.vd_DeviceObject irp ∈ (vdev_disk_io_start E os vd zio).trace ∧
          (vdev_disk_io_start E os vd zio).vb = some ⟨os.abd_borrow, irp⟩ ∧
          irp.ByteOffset = (zio.io_offset + vd.vdev_win_offset) % 2 ^ 64) := by
  cases hb : os.IoBuildAsynchronousFsdRequest <;>
    by_cases hs : os.IoGetNextIrpStackLocation = 18446744073709551615 <;>
    rcases hty with h | h <;>
    simp [vdev_disk_io_start, vdev_disk_io_start_rw, ht, hoff, h, hb, hs]

/-- Witness of C9: a read at offset 4096 on a device with partition bias
1048576 reaches the driver with byte offset 1052672. -/
theorem io_start_offset_is_biased_witness :
    ∃ irp, Call.IoCallDriver (some 9) irp ∈ (vdev_disk_io_start sample_env ⟨100, true, 0⟩
        { sample_vdev with vdev_tsd := some sample_dvd, vdev_win_offset := 1048576 }
        sample_zio).trace ∧
      (vdev_disk_io_start sample_env ⟨100, true, 0⟩
        { sample_vdev with vdev_tsd := some sample_dvd, vdev_win_offset := 1048576 }
        sample_zio).vb = some ⟨100, irp⟩ ∧
      irp.ByteOffset = 1052672 :=
  (io_start_offset_is_biased sample_env ⟨100, true, 0⟩
    { sample_vdev with vdev_tsd := some sample_dvd, vdev_win_offset := 1048576 } sample_dvd
    sample_zio rfl rfl (Or.inl rfl)).2.2 rfl (by decide)

/-- C10 as stated fails: for the path `#abc#def#/dev/disk1`, whose offset and
length fields are not decimal numbers, `vdev_disk_open` does call
`ZwCreateFile` (on the name `abc#def#/dev/disk1`); when the OS refuses the
name the `EINVAL` comes after that call, and when the OS accepts it the open
succeeds. -/
theorem open_nondecimal_fields_reaches_os :
    (vdev_disk_open sample_env ⟨none, none, 0⟩
        { sample_vdev with vdev_path := some "#abc#def#/dev/disk1".toList } sample_out).trace
      = [Call.kmem_zalloc_vdev_disk_t,
         Call.RtlAnsiStringToUnicodeString "abc#def#/dev/disk1".toList,
         Call.ZwCreateFile "abc#def#/dev/disk1".toList false none] ∧
    (vdev_disk_open sample_env ⟨some 7, some 8, 9⟩
        { sample_vdev with vdev_path := some "#abc#def#/dev/disk1".toList } sample_out).error
      = 0 := by
  constructor <;> decide

/-- C10 amended: for every path that starts with `#` on a never-opened device
and whose file name fits the name buffers (`NameLength < PATH_MAX`), whatever
`ddi_strtoull` makes of the offset and length fields, `vdev_disk_open`
allocates the adapter state and calls `ZwCreateFile` exactly once, and the name
it passes is the text left after the fields are scanned (`kernel_file_name` of
`text_after_fields`, cut to its length modulo 2^16); it returns `EINVAL`
exactly when that call fails. -/
theorem open_partition_path_always_reaches_os (E : Env) (os : OsOpen) (vd : vdev_t)
    (out : open_out) (p : List Char) (hp : vd.vdev_path = some p)
    (hv : first_char p = '#') (ht : vd.vdev_tsd = none)
    (hlen : (kernel_file_name (text_after_fields E p)).length % 2 ^ 16 < E.PATH_MAX) :
    (vdev_disk_open E os vd out).trace.filter Call.isZwCreateFile
      = [Call.ZwCreateFile
          ((kernel_file_name (text_after_fields E p)).take
            ((kernel_file_name (text_after_fields E p)).length % 2 ^ 16))
          vd.spa_mode_FREAD os.ZwCreateFile] ∧
    (vdev_disk_open E os vd out).trace.countP Call.isZwCreateFile = 1 ∧
    (vdev_disk_open E os vd out).trace.countP Call.isAlloc = 1 ∧
    ((vdev_disk_open E os vd out).error = EINVAL ↔ os.ZwCreateFile = none) := by
  have hname : ∀ v : vdev_t, kernel_file_name (parse_path E v p).2.2
      = kernel_file_name (text_after_fields E p) := by
    intro v
    rw [parse_path_file_name]
    simp [open_file_name, hv]
  have hfit : ¬ E.PATH_MAX ≤ (kernel_file_name (text_after_fields E p)).length % 65536 := by
    simpa using hlen
  obtain ⟨zw, ob, dev⟩ := os
  cases zw with
  | none =>
    simp [vdev_disk_open, hp, hv, ht, vdev_disk_open_device, vdev_disk_alloc, hname, hfit,
      List.countP_cons, List.filter_cons, Call.isZwCreateFile, Call.isAlloc]
  | some h =>
    cases ob with
    | none =>
      simp [vdev_disk_open, hp, hv, ht, vdev_disk_open_device, vdev_disk_alloc, hname, hfit,
        List.countP_cons, List.filter_cons, Call.isZwCreateFile, Call.isAlloc, EIO, EINVAL]
    | some f =>
      simp [vdev_disk_open, hp, hv, ht, vdev_disk_open_device, vdev_disk_alloc, hname, hfit,
        vdev_disk_open_skip_open, List.countP_cons, List.filter_cons, Call.isZwCreateFile,
        Call.isAlloc, EINVAL]

/-- Witness of C10 amended: for `#abc#def#/dev/disk1` the OS is given the name
`abc#def#/dev/disk1`, and for `#1048576#2097152#/dev/disk1` the name
`/dev/disk1`. -/
theorem open_partition_path_always_reaches_os_witness :
    (vdev_disk_open sample_env ⟨none, none, 0⟩
        { sample_vdev with vdev_path := some "#abc#def#/dev/disk1".toList }
        sample_out).trace.filter Call.isZwCreateFile
      = [Call.ZwCreateFile "abc#def#/dev/disk1".toList false none] ∧
    (vdev_disk_open sample_env ⟨some 7, some 8, 9⟩
        { sample_vdev with vdev_path := some "#1048576#2097152#/dev/disk1".toList }
        sample_out).trace.filter Call.isZwCreateFile
      = [Call.ZwCreateFile "/dev/disk1".toList false (some 7)] :=
  ⟨(open_partition_path_always_reaches_os sample_env ⟨none, none, 0⟩
      { sample_vdev with vdev_path := some "#abc#def#/dev/disk1".toList } sample_out
      "#abc#def#/dev/disk1".toList rfl (by decide) rfl (by decide)).1,
   (open_partition_path_always_reaches_os sample_env ⟨some 7, some 8, 9⟩
      { sample_vdev with vdev_path := some "#1048576#2097152#/dev/disk1".toList } sample_out
      "#1048576#2097152#/dev/disk1".toList rfl (by decide) rfl (by decide)).1⟩

/-- C11: an open that follows a failed open reports success with no handle.
From the never-opened sample device, an open during which `ZwCreateFile` fails
returns `EINVAL` and leaves the adapter state allocated with `vd_lh` NULL; after
a close made while reopening (which does nothing), the next open, reopening,
takes the `skip_open` path: it returns 0, makes no call, and the adapter state
still has `vd_lh`, `vd_FileObject` and `vd_DeviceObject` all NULL. The same
happens with the reopening flag clear and no close in between. -/
theorem reopen_after_failed_open_reports_success :
    (vdev_disk_open sample_env ⟨none, none, 0⟩ sample_vdev sample_out).error = EINVAL ∧
    (vdev_op_run sample_env sample_out sample_vdev
        [vdev_op.vdev_op_open false ⟨none, none, 0⟩, vdev_op.vdev_op_close true]).vdev_tsd
      = some ⟨none, none, none, false⟩ ∧
    (vdev_disk_open sample_env ⟨some 7, some 8, 9⟩
        { vdev_op_run sample_env sample_out sample_vdev
            [vdev_op.vdev_op_open false ⟨none, none, 0⟩, vdev_op.vdev_op_close true]
          with vdev_reopening := true } sample_out).error = 0 ∧
    (vdev_disk_open sample_env ⟨some 7, some 8, 9⟩
        { vdev_op_run sample_env sample_out sample_vdev
            [vdev_op.vdev_op_open false ⟨none, none, 0⟩, vdev_op.vdev_op_close true]
          with vdev_reopening := true } sample_out).trace = [] ∧
    (vdev_disk_open sample_env ⟨some 7, some 8, 9⟩
        { vdev_op_run sample_env sample_out sample_vdev
            [vdev_op.vdev_op_open false ⟨none, none, 0⟩, vdev_op.vdev_op_close true]
          with vdev_reopening := true } sample_out).vd.vdev_tsd
      = some ⟨none, none, none, false⟩ ∧
    (vdev_disk_open sample_env ⟨some 7, some 8, 9⟩
        { vdev_op_run sample_env sample_out sample_vdev
            [vdev_op.vdev_op_open false ⟨none, none, 0⟩]
          with vdev_reopening := false } sample_out).error = 0 ∧
    (vdev_disk_open sample_env ⟨some 7, some 8, 9⟩
        { vdev_op_run sample_env sample_out sample_vdev
            [vdev_op.vdev_op_open false ⟨none, none, 0⟩]
          with vdev_reopening := false } sample_out).vd.vdev_tsd
      = some ⟨none, none, none, false⟩ := by
  refine ⟨?_, ?_, ?_, ?_, ?_, ?_, ?_⟩ <;> decide

/-- An open that starts with no adapter state (`vdev_tsd` NULL), on a path
whose file name fits the name buffers, returns 0 only with an open device: the
handle, the file object and the device object are all non-NULL afterwards. -/
theorem open_from_closed_success_holds_device (E : Env) (os : OsOpen) (vd : vdev_t)
    (out : open_out)
    (hlen : ∀ p, vd.vdev_path = some p → (open_file_name E p).length % 2 ^ 16 < E.PATH_MAX)
    (ht : vd.vdev_tsd = none)
    (h0 : (vdev_disk_open E os vd out).error = 0) :
    ∃ h f d, (vdev_disk_open E os vd out).vd.vdev_tsd
      = some ⟨some h, some f, some d, false⟩ := by
  cases hp : vd.vdev_path with
  | none => simp [vdev_disk_open, hp, EINVAL] at h0
  | some p =>
  have hfit : ¬ E.PATH_MAX ≤ (open_file_name E p).length % 65536 := by
    simpa using hlen p hp
  obtain ⟨zw, ob, dev⟩ := os
  by_cases hv : first_char p ≠ '/' ∧ first_char p ≠ '#'
  · simp [vdev_disk_open, hp, hv, EINVAL] at h0
  · cases zw with
    | none =>
      simp [vdev_disk_open, hp, hv, ht, vdev_disk_open_device, parse_path_file_name, hfit,
        EINVAL] at h0
    | some h =>
      cases ob with
      | none =>
        simp [vdev_disk_open, hp, hv, ht, vdev_disk_open_device, parse_path_file_name, hfit,
          EIO] at h0
      | some f =>
        refine ⟨h, f, dev, ?_⟩
        simp [vdev_disk_open, hp, hv, ht, vdev_disk_open_device, vdev_disk_alloc,
          parse_path_file_name, hfit, vdev_disk_open_skip_open]

/-- The sample device opened with handle 7, file object 8 and device object 9. -/
theorem open_from_closed_success_holds_device_witness :
    ∃ h f d, (vdev_disk_open sample_env ⟨some 7, some 8, 9⟩ sample_vdev sample_out).vd.vdev_tsd
      = some ⟨some h, some f, some d, false⟩ :=
  open_from_closed_success_holds_device sample_env ⟨some 7, some 8, 9⟩ sample_vdev sample_out
    (fun p hp => by
      have e : p = "/dev/disk1".toList := (Option.some.inj hp).symm
      subst e
      decide)
    rfl (by decide)

end VdevDisk
